import Mathlib

/-!
Shallow embedding of the resto-frontend POS backend (Express + Sequelize
route handlers) and verification of its specification claims.

Money and rates are modelled as rationals, timestamps as integers
(milliseconds since epoch, as in JavaScript `Date` arithmetic), and the
relational store as lists of rows.  Each HTTP handler becomes a pure
function from the store (plus request parameters and the current time) to
`Except ApiError (result)`; an `.error` result corresponds to a 4xx
response in which no write was performed, so "rejected with no state
change" is captured by the shape of the return type.
-/

namespace Resto

/-- HTTP-level error classes used by the handlers: `badRequest` is a 400
response, `forbidden` a 403, `notFound` a 404. -/
inductive ApiError where
  | badRequest (msg : String)
  | forbidden (msg : String)
  | notFound (msg : String)
  deriving DecidableEq, Repr

/-- Numeric HTTP status code of an `ApiError`. -/
def ApiError.code : ApiError → Nat
  | .badRequest _ => 400
  | .forbidden _ => 403
  | .notFound _ => 404

/-- A row of the `tables` relation (src/models/Table.js): physical table
with occupancy status, hourly rate, optional smart plug, and denormalized
current-session/customer fields. -/
structure Table where
  id : Nat
  table_number : Nat
  ttype : String
  status : String
  hourly_rate : ℚ
  plug_id : Option String
  plug_status : String
  current_session_id : Option Nat
  session_start_time : Option Int
  session_end_time : Option Int
  customer_name : Option String
  customer_phone : Option String
  is_active : Bool
  deriving DecidableEq, Repr

/-- A row of the `sessions` relation (src/unnamed/part_007): a time-boxed
occupancy of a table with its billing fields.  The Sequelize model
defaults `status` to "active", `payment_status` to "unpaid" and
`start_time` to now. -/
structure Session where
  id : Nat
  table_id : Nat
  table_number : Nat
  customer_name : String
  customer_phone : String
  hourly_rate : ℚ
  start_time : Int
  end_time : Option Int
  duration : Option Int
  session_cost : ℚ
  total_order_cost : ℚ
  subtotal : ℚ
  tax : ℚ
  service_fee : ℚ
  discount : ℚ
  total : ℚ
  payment_status : String
  payment_method : Option String
  status : String
  created_by : Nat
  deriving DecidableEq, Repr

/-- A row of the `orders` relation (src/models/Order.js). -/
structure Order where
  id : Nat
  table_id : Nat
  table_number : Nat
  customer_name : String
  customer_phone : String
  service_type : String
  order_type : String
  status : String
  subtotal : ℚ
  tax : ℚ
  discount : ℚ
  total : ℚ
  payment_status : String
  created_at : Int
  created_by : Nat
  deriving DecidableEq, Repr

/-- A row of the `order_items` relation: one line of an order, carrying a
denormalized name/price snapshot of the menu item. -/
structure OrderItem where
  id : Nat
  order_id : Nat
  menu_item_id : Nat
  name : String
  price : ℚ
  quantity : Nat
  status : String
  deriving DecidableEq, Repr

/-- A row of the `menu_items` relation (src/models/MenuItem.js). -/
structure MenuItem where
  id : Nat
  name : String
  price : ℚ
  is_available : Bool
  deriving DecidableEq, Repr

/-- A row of the `users` relation (auth): only the columns the verified
handlers read. -/
structure User where
  id : Nat
  name : String
  username : String
  email : String
  password : String
  phone : String
  role : String
  is_active : Bool
  deriving DecidableEq, Repr

/-- A row of the `reservations` relation (src/unnamed/part_004). -/
structure Reservation where
  id : Nat
  customer_name : String
  customer_phone : String
  table_id : Option Nat
  table_type : String
  reservation_date : String
  reservation_time : String
  duration : Nat
  party_size : Nat
  status : String
  deriving DecidableEq, Repr

/-- The discount sub-bundle of a user's permissions
(`permissions.specialPermissions.discounts` in the role literals of
src/routes/auth.js): item/bill/offers capability flags and the numeric
percentage ceiling. -/
structure DiscountPerms where
  item : Bool
  bill : Bool
  maxDiscount : ℚ
  deriving DecidableEq, Repr

/-- The shared relational store all handlers operate on. -/
structure DB where
  users : List User
  tables : List Table
  menuItems : List MenuItem
  orders : List Order
  orderItems : List OrderItem
  sessions : List Session
  reservations : List Reservation
  deriving DecidableEq, Repr

/-- The `Order.findAll` filter used by the end-session, bill, receipt and
payment handlers: all orders on a given table whose `created_at` lies in
the closed window `[lo, hi]`.  Note the predicate reads only `table_id`
and `created_at`; an order's `status` and `payment_status` are not
consulted. -/
def ordersInWindow (orders : List Order) (tid : Nat) (lo hi : Int) : List Order :=
  orders.filter (fun o => o.table_id == tid && lo ≤ o.created_at && o.created_at ≤ hi)

/-- `orders.reduce((sum, o) => sum + parseFloat(o.total), 0)`. -/
def sumOrderTotals (orders : List Order) : ℚ :=
  (orders.map (fun o => o.total)).sum

/-- `Math.ceil((endTime - start_time) / (1000 * 60))`: elapsed time in
minutes, rounded up. -/
def ceilMinutes (startTime endTime : Int) : Int :=
  ⌈((endTime - startTime : Int) : ℚ) / (1000 * 60)⌉

/-- The table reset performed when a session ends (src/routes/sessions.js
lines 241-249 and the identical block in the payment handler): status back
to available, denormalized session/customer fields cleared, plug off. -/
def resetTableRow (endTime : Int) (tb : Table) : Table :=
  { tb with
      status := "available"
      current_session_id := none
      session_start_time := none
      session_end_time := some endTime
      customer_name := none
      customer_phone := none
      plug_status := "offline" }

/-- POST /api/sessions/:id/end (src/routes/sessions.js lines 181-263).
Looks the session up, rejects unless it is active, computes duration /
session cost / in-window order cost / subtotal / tax / service fee /
total, persists them with status completed, and resets the session's
table. -/
def endSession (db : DB) (sid : Nat) (endTime : Int) :
    Except ApiError (DB × Session) :=
  match db.sessions.find? (fun s => s.id == sid) with
  | none => .error (.notFound "Session not found")
  | some s =>
    if s.status = "active" then
      let duration := ceilMinutes s.start_time endTime
      let sessionCost := ((duration : ℚ) / 60) * s.hourly_rate
      let totalOrderCost :=
        sumOrderTotals (ordersInWindow db.orders s.table_id s.start_time endTime)
      let subtotal := sessionCost + totalOrderCost
      let tax := subtotal * (85 / 1000)
      let serviceFee := subtotal * (5 / 100)
      let total := subtotal + tax + serviceFee
      let s' := { s with
          end_time := some endTime
          duration := some duration
          session_cost := sessionCost
          total_order_cost := totalOrderCost
          subtotal := subtotal
          tax := tax
          service_fee := serviceFee
          total := total
          status := "completed" }
      .ok
        ({ db with
            sessions := db.sessions.map (fun x => if x.id == sid then s' else x)
            tables := db.tables.map
              (fun tb => if tb.id == s.table_id then resetTableRow endTime tb else tb) },
          s')
    else
      .error (.badRequest "Session is not active")

/-! ### Sample rows used by the witness theorems -/

/-- A concrete occupied table hosting the sample active session. -/
def wTable : Table :=
  { id := 1, table_number := 5, ttype := "Snooker", status := "occupied",
    hourly_rate := 60, plug_id := some "plug-1", plug_status := "online",
    current_session_id := some 1, session_start_time := some 0,
    session_end_time := none, customer_name := some "Asha",
    customer_phone := some "999", is_active := true }

/-- A concrete active, unpaid session on `wTable`, started at time 0. -/
def wSession : Session :=
  { id := 1, table_id := 1, table_number := 5, customer_name := "Asha",
    customer_phone := "999", hourly_rate := 60, start_time := 0,
    end_time := none, duration := none, session_cost := 0,
    total_order_cost := 0, subtotal := 0, tax := 0, service_fee := 0,
    discount := 0, total := 0, payment_status := "unpaid",
    payment_method := none, status := "active", created_by := 1 }

/-- A concrete order on table 1 placed 10 minutes into the session. -/
def wOrder : Order :=
  { id := 1, table_id := 1, table_number := 5, customer_name := "Asha",
    customer_phone := "999", service_type := "dine-in", order_type := "food",
    status := "pending", subtotal := 100, tax := 0, discount := 0,
    total := 100, payment_status := "unpaid", created_at := 600000,
    created_by := 1 }

/-- A concrete store holding the sample table, session and order. -/
def wDB : DB :=
  { users := [], tables := [wTable], menuItems := [], orders := [wOrder],
    orderItems := [], sessions := [wSession], reservations := [] }

/-! ### C1: ending a session -/

/-- Arithmetic of the fixed rates: tax 8.5% plus service fee 5% on a
subtotal makes the total exactly 1.135 times the subtotal. -/
theorem bill_total_ratio (x : ℚ) :
    x + x * (85 / 1000) + x * (5 / 100) = x * (1135 / 1000) := by
  ring

/-- C1: for every session with status "active", start time s, and hourly
rate R, ending it at time t sets duration = ceil((t - s) in minutes),
session_cost = (duration/60) x R, total_order_cost = the sum of totals of
orders on the same table created within [s, t], subtotal = session_cost +
total_order_cost, tax = 0.085 x subtotal, service_fee = 0.05 x subtotal,
total = subtotal + tax + service_fee = 1.135 x subtotal, flips the session
to "completed", and resets the table to "available" clearing its
denormalized session and customer fields; ending a session whose status is
not "active" is rejected with 400 and no state change (the handler returns
an error carrying no store). -/
theorem end_session_correct (db : DB) (sid : Nat) (t : Int) (s : Session)
    (hfind : db.sessions.find? (fun x => x.id == sid) = some s) :
    (s.status = "active" →
      ∃ db' s', endSession db sid t = .ok (db', s') ∧
        s'.duration = some (ceilMinutes s.start_time t) ∧
        s'.session_cost = ((ceilMinutes s.start_time t : ℚ) / 60) * s.hourly_rate ∧
        s'.total_order_cost =
          sumOrderTotals (ordersInWindow db.orders s.table_id s.start_time t) ∧
        s'.subtotal = s'.session_cost + s'.total_order_cost ∧
        s'.tax = s'.subtotal * (85 / 1000) ∧
        s'.service_fee = s'.subtotal * (5 / 100) ∧
        s'.total = s'.subtotal + s'.tax + s'.service_fee ∧
        s'.total = s'.subtotal * (1135 / 1000) ∧
        s'.status = "completed" ∧
        s'.end_time = some t ∧
        db'.sessions = db.sessions.map (fun x => if x.id == sid then s' else x) ∧
        db'.tables = db.tables.map
          (fun tb => if tb.id == s.table_id then resetTableRow t tb else tb) ∧
        (∀ tb ∈ db.tables, tb.id = s.table_id →
          (resetTableRow t tb).status = "available" ∧
          (resetTableRow t tb).current_session_id = none ∧
          (resetTableRow t tb).customer_name = none ∧
          (resetTableRow t tb).customer_phone = none)) ∧
    (s.status ≠ "active" →
      endSession db sid t = .error (.badRequest "Session is not active") ∧
      (ApiError.badRequest "Session is not active").code = 400) := by
  constructor
  · intro hact
    simp only [endSession, hfind, hact, reduceIte]
    exact ⟨_, _, rfl, rfl, rfl, rfl, rfl, rfl, rfl, rfl, bill_total_ratio _, rfl, rfl,
      rfl, rfl, fun tb _ _ => ⟨rfl, rfl, rfl, rfl⟩⟩
  · intro hns
    refine ⟨?_, rfl⟩
    simp only [endSession, hfind]
    rw [if_neg hns]

/-- Witness for C1: on the concrete store `wDB`, session 1 is found and
active, and ending it at t = 3600000 ms succeeds with the computed bill
(subtotal 160 = 60 session cost + 100 order cost, total 181.6). -/
theorem end_session_correct_witness :
    wDB.sessions.find? (fun x => x.id == 1) = some wSession ∧
    wSession.status = "active" ∧
    ∃ db' s', endSession wDB 1 3600000 = .ok (db', s') ∧
      s'.subtotal = 160 ∧ s'.total = 908 / 5 ∧ s'.status = "completed" := by
  refine ⟨rfl, rfl, ?_⟩
  obtain ⟨db', s', hok, -, hsc, htoc, hsub, -, -, -, hrat, hst, -, -, -⟩ :=
    (end_session_correct wDB 1 3600000 wSession rfl).1 rfl
  have h160 : s'.subtotal = 160 := by
    rw [hsub, hsc, htoc]
    norm_num [ceilMinutes, sumOrderTotals, ordersInWindow, wSession, wOrder, wDB,
      List.filter]
  refine ⟨db', s', hok, h160, ?_, hst⟩
  rw [hrat, h160]; norm_num

/-! ### C2: processing payment -/

/-- POST /api/billing/session/:sessionId/payment (src/unnamed/part_000
lines 170-265).  Rejects if already paid; otherwise marks the session paid
with the given method.  If the session is still active it additionally
sets end_time, duration and session_cost (and only those billing fields),
flips the status to completed and resets the table.  Finally every order
on the session's table created within [start_time, end_time or now] has
its payment_status set to paid. -/
def processPayment (db : DB) (sid : Nat) (method : String) (now : Int) :
    Except ApiError (DB × Session) :=
  match db.sessions.find? (fun s => s.id == sid) with
  | none => .error (.notFound "Session not found")
  | some s =>
    if s.payment_status = "paid" then
      .error (.badRequest "Session already paid")
    else
      let s1 := { s with payment_status := "paid", payment_method := some method }
      let stepped :=
        if s1.status = "active" then
          let duration := ceilMinutes s1.start_time now
          let sessionCost := ((duration : ℚ) / 60) * s1.hourly_rate
          ({ s1 with
              end_time := some now
              duration := some duration
              session_cost := sessionCost
              status := "completed" },
            db.tables.map
              (fun tb => if tb.id == s.table_id then resetTableRow now tb else tb))
        else
          (s1, db.tables)
      let s2 := stepped.1
      let windowEnd := s2.end_time.getD now
      .ok
        ({ db with
            tables := stepped.2
            orders := db.orders.map (fun o =>
              if o.table_id == s.table_id && s.start_time ≤ o.created_at &&
                  o.created_at ≤ windowEnd then
                { o with payment_status := "paid" }
              else o)
            sessions := db.sessions.map (fun x => if x.id == sid then s2 else x) },
          s2)

/-- The sample session after payment at t = 3600000: paid by cash, ended
with duration 60 min and session cost 60, but with the billing aggregates
(total_order_cost, subtotal, tax, service_fee, total) left at their prior
values. -/
def wPaidSession : Session :=
  { wSession with
      payment_status := "paid"
      payment_method := some "cash"
      end_time := some 3600000
      duration := some 60
      session_cost := 60
      status := "completed" }

/-- `wTable` after the payment handler resets it. -/
def wTableReset : Table :=
  { wTable with
      status := "available"
      current_session_id := none
      session_start_time := none
      session_end_time := some 3600000
      customer_name := none
      customer_phone := none
      plug_status := "offline" }

/-- `wOrder` after the payment handler marks it paid. -/
def wOrderPaid : Order :=
  { wOrder with payment_status := "paid" }

/-- The sample store after paying session 1 at t = 3600000. -/
def wDBPaid : DB :=
  { wDB with
      tables := [wTableReset]
      orders := [wOrderPaid]
      sessions := [wPaidSession] }

/-- Counterexample to C2 as stated: paying the active sample session does
NOT perform the same computation as the end endpoint.  The handler leaves
subtotal, tax, service_fee, total and total_order_cost untouched (here 0)
even though the in-window orders total 100 and the session cost is 60, so
the claimed equality subtotal = session_cost + total_order_cost fails on
the persisted row (0 vs 160). -/
theorem payment_no_bill_recompute_cex :
    processPayment wDB 1 "cash" 3600000 = .ok (wDBPaid, wPaidSession) ∧
    wPaidSession.session_cost = 60 ∧
    sumOrderTotals
      (ordersInWindow wDB.orders wSession.table_id wSession.start_time 3600000) = 100 ∧
    wPaidSession.subtotal = 0 ∧
    wPaidSession.tax = 0 ∧
    wPaidSession.service_fee = 0 ∧
    wPaidSession.total = 0 ∧
    wPaidSession.total_order_cost = 0 ∧
    wPaidSession.subtotal ≠
      wPaidSession.session_cost +
        sumOrderTotals
          (ordersInWindow wDB.orders wSession.table_id wSession.start_time 3600000) := by
  refine ⟨?_, rfl, ?_, rfl, rfl, rfl, rfl, rfl, ?_⟩
  · norm_num [processPayment, wDB, wSession, wOrder, wTable, wPaidSession,
      wTableReset, wOrderPaid, wDBPaid, ceilMinutes, resetTableRow]
    exact fun h => absurd h (by decide)
  · norm_num [sumOrderTotals, ordersInWindow, wDB, wSession, wOrder, List.filter]
  · norm_num [sumOrderTotals, ordersInWindow, wDB, wSession, wOrder, wPaidSession,
      List.filter]

/-- C2 (amended): payment for a session whose payment_status is "paid" is
rejected with 400; otherwise payment_status is set to "paid" and the
method stored.  If the session is still active the handler computes ONLY
duration, session_cost and end_time (not total_order_cost, subtotal, tax,
service_fee or total, which keep their previous values), marks it
completed and resets the table; every order on the session's table created
within [start_time, end_time-or-now] is marked paid.  If the session is
not active, the table and the billing fields are untouched and only the
orders in the stored window are marked paid. -/
theorem payment_behavior (db : DB) (sid : Nat) (method : String) (now : Int)
    (s : Session) (hfind : db.sessions.find? (fun x => x.id == sid) = some s) :
    (s.payment_status = "paid" →
      processPayment db sid method now = .error (.badRequest "Session already paid") ∧
      (ApiError.badRequest "Session already paid").code = 400) ∧
    (s.payment_status ≠ "paid" → s.status = "active" →
      ∃ db' s', processPayment db sid method now = .ok (db', s') ∧
        s'.payment_status = "paid" ∧
        s'.payment_method = some method ∧
        s'.end_time = some now ∧
        s'.duration = some (ceilMinutes s.start_time now) ∧
        s'.session_cost = ((ceilMinutes s.start_time now : ℚ) / 60) * s.hourly_rate ∧
        s'.status = "completed" ∧
        s'.total_order_cost = s.total_order_cost ∧
        s'.subtotal = s.subtotal ∧
        s'.tax = s.tax ∧
        s'.service_fee = s.service_fee ∧
        s'.total = s.total ∧
        db'.tables = db.tables.map
          (fun tb => if tb.id == s.table_id then resetTableRow now tb else tb) ∧
        db'.orders = db.orders.map (fun o =>
          if o.table_id == s.table_id && s.start_time ≤ o.created_at &&
              o.created_at ≤ now then
            { o with payment_status := "paid" }
          else o) ∧
        db'.sessions = db.sessions.map (fun x => if x.id == sid then s' else x)) ∧
    (s.payment_status ≠ "paid" → s.status ≠ "active" →
      ∃ db' s', processPayment db sid method now = .ok (db', s') ∧
        s'.payment_status = "paid" ∧
        s'.payment_method = some method ∧
        s'.status = s.status ∧
        s'.duration = s.duration ∧
        s'.session_cost = s.session_cost ∧
        s'.total = s.total ∧
        db'.tables = db.tables ∧
        db'.orders = db.orders.map (fun o =>
          if o.table_id == s.table_id && s.start_time ≤ o.created_at &&
              o.created_at ≤ s.end_time.getD now then
            { o with payment_status := "paid" }
          else o) ∧
        db'.sessions = db.sessions.map (fun x => if x.id == sid then s' else x)) := by
  refine ⟨?_, ?_, ?_⟩
  · intro hpaid
    refine ⟨?_, rfl⟩
    simp only [processPayment, hfind, hpaid, reduceIte]
  · intro hunpaid hact
    simp only [processPayment, hfind]
    rw [if_neg hunpaid]
    simp only [hact, reduceIte]
    exact ⟨_, _, rfl, rfl, rfl, rfl, rfl, rfl, rfl, rfl, rfl, rfl, rfl, rfl, rfl,
      rfl, rfl⟩
  · intro hunpaid hns
    simp only [processPayment, hfind]
    rw [if_neg hunpaid]
    rw [if_neg hns]
    exact ⟨_, _, rfl, rfl, rfl, rfl, rfl, rfl, rfl, rfl, rfl, rfl⟩

/-- Witness for C2 (amended): paying the active unpaid sample session
succeeds, marks it paid, and leaves its subtotal at the prior value. -/
theorem payment_behavior_witness :
    wDB.sessions.find? (fun x => x.id == 1) = some wSession ∧
    wSession.payment_status ≠ "paid" ∧ wSession.status = "active" ∧
    ∃ db' s', processPayment wDB 1 "cash" 3600000 = .ok (db', s') ∧
      s'.payment_status = "paid" ∧ s'.subtotal = wSession.subtotal := by
  refine ⟨rfl, by decide, rfl, ?_⟩
  obtain ⟨db', s', hok, hpaid, -, -, -, -, -, -, hsub, -, -, -, -, -, -⟩ :=
    (payment_behavior wDB 1 "cash" 3600000 wSession rfl).2.1 (by decide) rfl
  exact ⟨db', s', hok, hpaid, hsub⟩

/-! ### C3 and C10: applying a discount -/

/-- POST /api/billing/session/:sessionId/discount (src/unnamed/part_000
lines 89-167).  Request validation accepts only discount_type in
{percentage, fixed} and a non-negative discount_value; the handler then
requires the caller's discount permission bundle to grant item- or
bill-level discounts (403 otherwise), enforces the maxDiscount ceiling for
percentage discounts only, computes the discount amount from the stored
subtotal, and persists total = max 0 (subtotal + tax + service_fee -
discount).  The returned triple carries the updated session, the discount
applied, and the UNCLAMPED new total echoed in the response body. -/
def applyDiscount (db : DB) (sid : Nat) (perms : DiscountPerms)
    (dtype : String) (dvalue : ℚ) :
    Except ApiError (DB × Session × ℚ × ℚ) :=
  if (dtype = "percentage" ∨ dtype = "fixed") ∧ 0 ≤ dvalue then
    match db.sessions.find? (fun s => s.id == sid) with
    | none => .error (.notFound "Session not found")
    | some s =>
      if ¬perms.item ∧ ¬perms.bill then
        .error (.forbidden "Insufficient permissions to apply discount")
      else if dtype = "percentage" ∧ perms.maxDiscount < dvalue then
        .error (.badRequest "Maximum discount allowed exceeded")
      else
        let subtotal := s.subtotal
        let discountAmount :=
          if dtype = "percentage" then subtotal * dvalue / 100 else dvalue
        let newTotal := subtotal + s.tax + s.service_fee - discountAmount
        let s' := { s with discount := discountAmount, total := max 0 newTotal }
        .ok
          ({ db with
              sessions := db.sessions.map (fun x => if x.id == sid then s' else x) },
            s', discountAmount, newTotal)
  else
    .error (.badRequest "Validation failed")

/-- C3: for every session and every acting user whose permission bundle
grants item- or bill-level discounts, a percentage discount p with
0 ≤ p ≤ maxDiscount sets the session's discount to subtotal x p / 100 and
its persisted total to max 0 (subtotal + tax + service_fee - subtotal x
p / 100); a percentage discount p > maxDiscount is rejected with 400 and
no session is written; a user with neither item nor bill discount
permission is rejected with 403. -/
theorem discount_percentage_correct (db : DB) (sid : Nat) (perms : DiscountPerms)
    (p : ℚ) (s : Session)
    (hfind : db.sessions.find? (fun x => x.id == sid) = some s) (hnn : 0 ≤ p) :
    ((perms.item ∨ perms.bill) → p ≤ perms.maxDiscount →
      ∃ db' s', applyDiscount db sid perms "percentage" p =
          .ok (db', s', s.subtotal * p / 100,
            s.subtotal + s.tax + s.service_fee - s.subtotal * p / 100) ∧
        s'.discount = s.subtotal * p / 100 ∧
        s'.total =
          max 0 (s.subtotal + s.tax + s.service_fee - s.subtotal * p / 100) ∧
        db'.sessions = db.sessions.map (fun x => if x.id == sid then s' else x)) ∧
    ((perms.item ∨ perms.bill) → perms.maxDiscount < p →
      applyDiscount db sid perms "percentage" p =
        .error (.badRequest "Maximum discount allowed exceeded") ∧
      (ApiError.badRequest "Maximum discount allowed exceeded").code = 400) ∧
    (¬perms.item ∧ ¬perms.bill →
      applyDiscount db sid perms "percentage" p =
        .error (.forbidden "Insufficient permissions to apply discount") ∧
      (ApiError.forbidden "Insufficient permissions to apply discount").code = 403) := by
  refine ⟨?_, ?_, ?_⟩
  · intro hperm hle
    simp only [applyDiscount, hfind, true_or, true_and, if_true]
    rw [if_pos hnn]
    rw [if_neg (fun hc => hperm.elim (fun hi => hc.1 hi) (fun hb => hc.2 hb))]
    rw [if_neg (not_lt.mpr hle)]
    exact ⟨_, _, rfl, rfl, rfl, rfl⟩
  · intro hperm hgt
    refine ⟨?_, rfl⟩
    simp only [applyDiscount, hfind, true_or, true_and, if_true]
    rw [if_pos hnn]
    rw [if_neg (fun hc => hperm.elim (fun hi => hc.1 hi) (fun hb => hc.2 hb))]
    rw [if_pos hgt]
  · intro hnone
    refine ⟨?_, rfl⟩
    simp only [applyDiscount, hfind, true_or, true_and, if_true]
    rw [if_pos hnn]
    rw [if_pos hnone]

/-- The sample session after it was ended at t = 3600000: billing fields
filled in (subtotal 160, tax 13.6, service fee 8, total 181.6). -/
def wEndedSession : Session :=
  { wSession with
      end_time := some 3600000
      duration := some 60
      session_cost := 60
      total_order_cost := 100
      subtotal := 160
      tax := 68 / 5
      service_fee := 8
      total := 908 / 5
      status := "completed" }

/-- The sample store with the ended session in place. -/
def wDBEnded : DB :=
  { wDB with sessions := [wEndedSession] }

/-- The Manager role's discount bundle from the registration literal:
item and bill discounts allowed, maxDiscount 15. -/
def wManagerDisc : DiscountPerms :=
  { item := true, bill := true, maxDiscount := 15 }

/-- The Staff role's discount bundle from the registration literal:
no discount capability at all. -/
def wStaffDisc : DiscountPerms :=
  { item := false, bill := false, maxDiscount := 0 }

/-- Witness for C3: a manager (maxDiscount 15) applying a 10% discount to
the ended sample session (subtotal 160) gets discount 16 and a clamped
total of 165.6 = 828/5. -/
theorem discount_percentage_correct_witness :
    wDBEnded.sessions.find? (fun x => x.id == 1) = some wEndedSession ∧
    (0 : ℚ) ≤ 10 ∧
    (wManagerDisc.item ∨ wManagerDisc.bill) ∧
    (10 : ℚ) ≤ wManagerDisc.maxDiscount ∧
    ∃ db' s', applyDiscount wDBEnded 1 wManagerDisc "percentage" 10 =
        .ok (db', s', wEndedSession.subtotal * 10 / 100,
          wEndedSession.subtotal + wEndedSession.tax + wEndedSession.service_fee -
            wEndedSession.subtotal * 10 / 100) ∧
      s'.discount = 16 ∧ s'.total = 828 / 5 := by
  refine ⟨rfl, by norm_num, Or.inl rfl, by norm_num [wManagerDisc], ?_⟩
  obtain ⟨db', s', hok, hdisc, htot, -⟩ :=
    (discount_percentage_correct wDBEnded 1 wManagerDisc 10 wEndedSession rfl
      (by norm_num)).1 (Or.inl rfl) (by norm_num [wManagerDisc])
  have harg : wEndedSession.subtotal + wEndedSession.tax + wEndedSession.service_fee -
      wEndedSession.subtotal * 10 / 100 = (828 / 5 : ℚ) := by
    norm_num [wEndedSession, wSession]
  have hd16 : wEndedSession.subtotal * 10 / 100 = (16 : ℚ) := by
    norm_num [wEndedSession, wSession]
  refine ⟨db', s', hok, ?_, ?_⟩
  · rw [hdisc, hd16]
  · rw [htot, harg, max_eq_right (by norm_num : (0 : ℚ) ≤ 828 / 5)]

/-- C10: the maxDiscount ceiling is enforced only for percentage
discounts.  For every session and every acting user holding item- or
bill-level discount permission, a fixed-type discount of ANY non-negative
amount v is accepted — no comparison against maxDiscount or the subtotal
is made — the session's discount is set to v, the persisted total is
clamped at max 0 (subtotal + tax + service_fee - v), and the new_total
echoed in the response is the unclamped (possibly negative) value. -/
theorem discount_fixed_unbounded (db : DB) (sid : Nat) (perms : DiscountPerms)
    (v : ℚ) (s : Session)
    (hfind : db.sessions.find? (fun x => x.id == sid) = some s) (hnn : 0 ≤ v)
    (hperm : perms.item ∨ perms.bill) :
    ∃ db' s', applyDiscount db sid perms "fixed" v =
        .ok (db', s', v, s.subtotal + s.tax + s.service_fee - v) ∧
      s'.discount = v ∧
      s'.total = max 0 (s.subtotal + s.tax + s.service_fee - v) ∧
      db'.sessions = db.sessions.map (fun x => if x.id == sid then s' else x) := by
  have hfp : ¬(("fixed" : String) = "percentage") := by decide
  simp only [applyDiscount, hfind, eq_false hfp, false_or, true_and, false_and,
    if_false, if_true]
  rw [if_pos hnn]
  rw [if_neg (fun hc => hperm.elim (fun hi => hc.1 hi) (fun hb => hc.2 hb))]
  exact ⟨_, _, rfl, rfl, rfl, rfl⟩

/-- Witness for C10: a manager whose maxDiscount is 15 applies a fixed
discount of 1000 to the ended sample session (grand total 181.6).  The
request is accepted, the persisted total is clamped to 0, and the response
new_total is the negative -4092/5. -/
theorem discount_fixed_unbounded_witness :
    (0 : ℚ) ≤ 1000 ∧
    (wManagerDisc.item ∨ wManagerDisc.bill) ∧
    wManagerDisc.maxDiscount < 1000 ∧
    ∃ db' s', applyDiscount wDBEnded 1 wManagerDisc "fixed" 1000 =
        .ok (db', s', 1000,
          wEndedSession.subtotal + wEndedSession.tax + wEndedSession.service_fee -
            1000) ∧
      s'.total = 0 ∧
      wEndedSession.subtotal + wEndedSession.tax + wEndedSession.service_fee -
        1000 < 0 := by
  have hneg : wEndedSession.subtotal + wEndedSession.tax + wEndedSession.service_fee -
      1000 = (-4092 / 5 : ℚ) := by
    norm_num [wEndedSession, wSession]
  refine ⟨by norm_num, Or.inl rfl, by norm_num [wManagerDisc], ?_⟩
  obtain ⟨db', s', hok, -, htot, -⟩ :=
    discount_fixed_unbounded wDBEnded 1 wManagerDisc 1000 wEndedSession rfl
      (by norm_num) (Or.inl rfl)
  refine ⟨db', s', hok, ?_, ?_⟩
  · rw [htot, hneg, max_eq_left (by norm_num : (-4092 / 5 : ℚ) ≤ 0)]
  · rw [hneg]; norm_num

/-! ### C4: marking a KOT item complete -/

/-- PATCH /api/kot/items/:itemId/complete (src/routes/kot.js lines
83-128).  Sets the item's status to "ready", then re-fetches ALL items of
the owning order and sets the parent order's status to "ready" exactly
when every sibling (after the update) is "ready"; otherwise the order is
left untouched. -/
def markItemComplete (db : DB) (itemId : Nat) :
    Except ApiError (DB × OrderItem) :=
  match db.orderItems.find? (fun i => i.id == itemId) with
  | none => .error (.notFound "Order item not found")
  | some it =>
    let items' := db.orderItems.map
      (fun i => if i.id == itemId then { i with status := "ready" } else i)
    let allReady := (items'.filter (fun i => i.order_id == it.order_id)).all
      (fun i => i.status == "ready")
    let orders' :=
      if allReady then
        db.orders.map
          (fun o => if o.id == it.order_id then { o with status := "ready" } else o)
      else db.orders
    .ok ({ db with orderItems := items', orders := orders' },
      { it with status := "ready" })

/-- C4: marking an item complete sets that item's status to "ready", and
the parent order's status is set to "ready" if and only if, after the
update, every item of that order (determined by a full re-scan of the
sibling items) has status "ready"; when some sibling is not "ready" the
orders relation is unchanged. -/
theorem item_complete_cascade (db : DB) (itemId : Nat) (it : OrderItem)
    (hfind : db.orderItems.find? (fun i => i.id == itemId) = some it) :
    ∃ db' it', markItemComplete db itemId = .ok (db', it') ∧
      it'.id = it.id ∧ it'.order_id = it.order_id ∧ it'.status = "ready" ∧
      db'.orderItems = db.orderItems.map
        (fun i => if i.id == itemId then { i with status := "ready" } else i) ∧
      (((db'.orderItems.filter (fun i => i.order_id == it.order_id)).all
          (fun i => i.status == "ready")) = true →
        db'.orders = db.orders.map
          (fun o => if o.id == it.order_id then { o with status := "ready" } else o)) ∧
      (((db'.orderItems.filter (fun i => i.order_id == it.order_id)).all
          (fun i => i.status == "ready")) ≠ true →
        db'.orders = db.orders) := by
  simp only [markItemComplete, hfind]
  by_cases hall : ((db.orderItems.map
      (fun i => if i.id == itemId then { i with status := "ready" } else i)).filter
        (fun i => i.order_id == it.order_id)).all (fun i => i.status == "ready") = true
  · rw [if_pos hall]
    exact ⟨_, _, rfl, rfl, rfl, rfl, rfl, fun _ => rfl, fun hn => absurd hall hn⟩
  · rw [if_neg hall]
    exact ⟨_, _, rfl, rfl, rfl, rfl, rfl, fun h => absurd h hall, fun _ => rfl⟩

/-- An already-ready sibling item of the sample order. -/
def wItem1 : OrderItem :=
  { id := 1, order_id := 1, menu_item_id := 1, name := "Fries", price := 50,
    quantity := 1, status := "ready" }

/-- The last pending item of the sample order. -/
def wItem2 : OrderItem :=
  { id := 2, order_id := 1, menu_item_id := 2, name := "Cola", price := 50,
    quantity := 1, status := "pending" }

/-- The sample store with a two-item order, one item still pending. -/
def wDBKot : DB :=
  { wDB with orderItems := [wItem1, wItem2] }

/-- Witness for C4: completing the last pending item of the sample order
makes every sibling ready, so the parent order cascades to "ready". -/
theorem item_complete_cascade_witness :
    wDBKot.orderItems.find? (fun i => i.id == 2) = some wItem2 ∧
    ∃ db' it', markItemComplete wDBKot 2 = .ok (db', it') ∧
      it'.status = "ready" ∧
      ((db'.orderItems.filter (fun i => i.order_id == wItem2.order_id)).all
        (fun i => i.status == "ready")) = true ∧
      db'.orders = wDBKot.orders.map
        (fun o => if o.id == wItem2.order_id then { o with status := "ready" } else o) := by
  refine ⟨rfl, ?_⟩
  obtain ⟨db', it', hok, -, -, hst, hitems, hpos, -⟩ :=
    item_complete_cascade wDBKot 2 wItem2 rfl
  have hall : ((db'.orderItems.filter (fun i => i.order_id == wItem2.order_id)).all
      (fun i => i.status == "ready")) = true := by
    rw [hitems]; decide
  exact ⟨db', it', hok, hst, hall, hpos hall⟩

/-! ### C5: starting a session -/

/-- POST /api/sessions/start (src/routes/sessions.js lines 99-178).
Requires the target table to exist and be available; creates a session row
with the model defaults of src/unnamed/part_007 (status "active",
payment_status "unpaid", start_time now, money fields 0) carrying the
table's hourly_rate; flips the table to occupied with the denormalized
customer info and session pointer; when the table has a plug_id the
handler additionally sets plug_status to "online". -/
def startSession (db : DB) (tid : Nat) (cname cphone : String)
    (uid : Nat) (now : Int) (newSid : Nat) : Except ApiError (DB × Session) :=
  match db.tables.find? (fun tb => tb.id == tid) with
  | none => .error (.notFound "Table not found")
  | some tb =>
    if tb.status = "available" then
      let s : Session :=
        { id := newSid, table_id := tid, table_number := tb.table_number,
          customer_name := cname, customer_phone := cphone,
          hourly_rate := tb.hourly_rate, start_time := now, end_time := none,
          duration := none, session_cost := 0, total_order_cost := 0,
          subtotal := 0, tax := 0, service_fee := 0, discount := 0, total := 0,
          payment_status := "unpaid", payment_method := none,
          status := "active", created_by := uid }
      let tb1 := { tb with
          status := "occupied"
          current_session_id := some newSid
          session_start_time := some now
          customer_name := some cname
          customer_phone := some cphone }
      let tb2 := if tb.plug_id.isSome then { tb1 with plug_status := "online" } else tb1
      .ok
        ({ db with
            sessions := db.sessions ++ [s]
            tables := db.tables.map (fun x => if x.id == tid then tb2 else x) }, s)
    else
      .error (.badRequest "Table is not available")

/-- C5: starting a session on a table whose status is not "available" is
rejected with 400 with no session created and no table changed (the
handler errors before any write); on an available table it creates a
session with status "active" carrying the table's hourly_rate, flips the
table to "occupied" storing the session pointer and customer name/phone,
and sets plug_status to "online" exactly when the table has a plug_id. -/
theorem start_session_correct (db : DB) (tid : Nat) (cname cphone : String)
    (uid : Nat) (now : Int) (nsid : Nat) (tb : Table)
    (hfind : db.tables.find? (fun x => x.id == tid) = some tb) :
    (tb.status ≠ "available" →
      startSession db tid cname cphone uid now nsid =
        .error (.badRequest "Table is not available") ∧
      (ApiError.badRequest "Table is not available").code = 400) ∧
    (tb.status = "available" →
      ∃ db' s, startSession db tid cname cphone uid now nsid = .ok (db', s) ∧
        s.status = "active" ∧
        s.hourly_rate = tb.hourly_rate ∧
        s.table_id = tid ∧
        s.customer_name = cname ∧
        s.customer_phone = cphone ∧
        s.start_time = now ∧
        db'.sessions = db.sessions ++ [s] ∧
        (tb.plug_id.isSome = true →
          db'.tables = db.tables.map (fun x => if x.id == tid then { tb with
              status := "occupied"
              current_session_id := some nsid
              session_start_time := some now
              customer_name := some cname
              customer_phone := some cphone
              plug_status := "online" } else x)) ∧
        (tb.plug_id = none →
          db'.tables = db.tables.map (fun x => if x.id == tid then { tb with
              status := "occupied"
              current_session_id := some nsid
              session_start_time := some now
              customer_name := some cname
              customer_phone := some cphone } else x))) := by
  constructor
  · intro hns
    refine ⟨?_, rfl⟩
    simp only [startSession, hfind]
    rw [if_neg hns]
  · intro hav
    simp only [startSession, hfind, hav, reduceIte]
    refine ⟨_, _, rfl, rfl, rfl, rfl, rfl, rfl, rfl, rfl, ?_, ?_⟩
    · intro hps
      rw [if_pos hps]
    · intro hpn
      rw [hpn]
      simp only [Option.isSome_none, Bool.false_eq_true, if_false]

/-- The sample table in its free state (available, no session). -/
def wTableFree : Table :=
  { wTable with
      status := "available"
      current_session_id := none
      session_start_time := none
      customer_name := none
      customer_phone := none }

/-- The sample store with the free table and no session. -/
def wDBFree : DB :=
  { wDB with
      tables := [wTableFree]
      sessions := [] }

/-- Witness for C5: starting a session on the available sample table
succeeds with an active session at the table's rate, and the plug (which
is present) is switched online. -/
theorem start_session_correct_witness :
    wDBFree.tables.find? (fun x => x.id == 1) = some wTableFree ∧
    wTableFree.status = "available" ∧ wTableFree.plug_id.isSome = true ∧
    ∃ db' s, startSession wDBFree 1 "Noor" "888" 1 0 7 = .ok (db', s) ∧
      s.status = "active" ∧ s.hourly_rate = wTableFree.hourly_rate ∧
      db'.tables = wDBFree.tables.map (fun x => if x.id == 1 then { wTableFree with
          status := "occupied"
          current_session_id := some 7
          session_start_time := some 0
          customer_name := some "Noor"
          customer_phone := some "888"
          plug_status := "online" } else x) := by
  refine ⟨rfl, rfl, rfl, ?_⟩
  obtain ⟨db', s, hok, hst, hrate, -, -, -, -, -, hplug, -⟩ :=
    (start_session_correct wDBFree 1 "Noor" "888" 1 0 7 wTableFree rfl).2 rfl
  exact ⟨db', s, hok, hst, hrate, hplug rfl⟩

/-! ### C6: creating an order -/

/-- One requested line of an order-create request body. -/
structure OrderLine where
  menu_item_id : Nat
  quantity : Nat
  deriving DecidableEq, Repr

/-- A validated line: the denormalized menu-item snapshot collected by the
create-order loop before persistence. -/
structure ItemSpec where
  menu_item_id : Nat
  name : String
  price : ℚ
  quantity : Nat
  deriving DecidableEq, Repr

/-- Whether a requested line passes the create-order validation: its menu
item is found and is_available. -/
def lineOk (menu : List MenuItem) (l : OrderLine) : Bool :=
  match menu.find? (fun m => m.id == l.menu_item_id) with
  | none => false
  | some m => m.is_available

/-- The price contribution of a requested line: menu price x quantity
(0 if the item is absent, a case excluded by validation). -/
def linePrice (menu : List MenuItem) (l : OrderLine) : ℚ :=
  match menu.find? (fun m => m.id == l.menu_item_id) with
  | none => 0
  | some m => m.price * l.quantity

/-- The per-line validation/accumulation loop of the create-order handler
(src/routes/auth.js lines 392-411): re-fetches each requested menu item,
fails with 400 on a missing or unavailable one, and otherwise accumulates
price x quantity into the subtotal while collecting the item snapshots.
The whole loop runs before any row is written. -/
def buildOrderItems (menu : List MenuItem) :
    List OrderLine → Except ApiError (ℚ × List ItemSpec)
  | [] => .ok (0, [])
  | l :: ls =>
    match menu.find? (fun m => m.id == l.menu_item_id) with
    | none => .error (.badRequest "Menu item is not available")
    | some m =>
      if m.is_available then
        match buildOrderItems menu ls with
        | .error e => .error e
        | .ok (sub, specs) =>
          .ok (m.price * l.quantity + sub,
            { menu_item_id := m.id, name := m.name, price := m.price,
              quantity := l.quantity } :: specs)
      else
        .error (.badRequest "Menu item is not available")

/-- The order-item rows persisted after the order row, one per validated
line, in request order. -/
def mkOrderItems (oid : Nat) : Nat → List ItemSpec → List OrderItem
  | _, [] => []
  | nextId, sp :: sps =>
    { id := nextId, order_id := oid, menu_item_id := sp.menu_item_id,
      name := sp.name, price := sp.price, quantity := sp.quantity,
      status := "pending" } :: mkOrderItems oid (nextId + 1) sps

/-- POST /api/orders (src/routes/auth.js lines 350-471, the order router
appended to the auth file).  Validates that the table exists, runs the
per-line validation/accumulation loop, computes tax = 8.5% of the
subtotal and total = subtotal + tax, then persists the order row followed
by one order-item row per line. -/
def createOrder (db : DB) (tid : Nat) (lines : List OrderLine)
    (cname cphone stype otype : String) (uid : Nat) (now : Int)
    (newOid firstItemId : Nat) : Except ApiError (DB × Order) :=
  match db.tables.find? (fun tb => tb.id == tid) with
  | none => .error (.notFound "Table not found")
  | some tb =>
    match buildOrderItems db.menuItems lines with
    | .error e => .error e
    | .ok (subtotal, specs) =>
      let tax := subtotal * (85 / 1000)
      let total := subtotal + tax
      let order : Order :=
        { id := newOid, table_id := tid, table_number := tb.table_number,
          customer_name := cname, customer_phone := cphone,
          service_type := stype, order_type := otype, status := "pending",
          subtotal := subtotal, tax := tax, discount := 0, total := total,
          payment_status := "unpaid", created_at := now, created_by := uid }
      .ok
        ({ db with
            orders := db.orders ++ [order]
            orderItems := db.orderItems ++ mkOrderItems newOid firstItemId specs },
          order)

/-- The validation loop fails with 400 as soon as any requested line
references a missing or unavailable menu item. -/
theorem buildOrderItems_err (menu : List MenuItem) (lines : List OrderLine)
    (h : lines.all (lineOk menu) ≠ true) :
    buildOrderItems menu lines = .error (.badRequest "Menu item is not available") := by
  induction lines with
  | nil => exact absurd rfl h
  | cons l ls ih =>
    rcases hf : menu.find? (fun m => m.id == l.menu_item_id) with _ | m
    · simp only [buildOrderItems, hf]
    · by_cases hav : m.is_available = true
      · have hls : ls.all (lineOk menu) ≠ true := fun hall =>
          h (by simp [List.all_cons, lineOk, hf, hav, hall])
        simp only [buildOrderItems, hf]
        rw [if_pos hav, ih hls]
      · simp only [buildOrderItems, hf]
        rw [if_neg hav]

/-- When every requested line is valid, the validation loop returns the
request-order sum of price x quantity and one snapshot per line. -/
theorem buildOrderItems_ok (menu : List MenuItem) (lines : List OrderLine)
    (h : lines.all (lineOk menu) = true) :
    ∃ specs, buildOrderItems menu lines =
        .ok ((lines.map (linePrice menu)).sum, specs) ∧
      specs.length = lines.length := by
  induction lines with
  | nil => exact ⟨[], by simp [buildOrderItems], rfl⟩
  | cons l ls ih =>
    rw [List.all_cons, Bool.and_eq_true] at h
    obtain ⟨hl, hls⟩ := h
    obtain ⟨specs, hok, hlen⟩ := ih hls
    rcases hf : menu.find? (fun m => m.id == l.menu_item_id) with _ | m
    · simp only [lineOk, hf] at hl
      exact Bool.noConfusion hl
    · simp only [lineOk, hf] at hl
      refine ⟨(⟨m.id, m.name, m.price, l.quantity⟩ : ItemSpec) :: specs, ?_,
        by simp [hlen]⟩
      simp only [buildOrderItems, hf, hok, List.map_cons, List.sum_cons, linePrice]
      rw [if_pos hl]

/-- `mkOrderItems` produces exactly one row per validated line. -/
theorem mkOrderItems_length (oid : Nat) :
    ∀ (nextId : Nat) (specs : List ItemSpec),
      (mkOrderItems oid nextId specs).length = specs.length
  | _, [] => rfl
  | nextId, _ :: sps => by
    simp only [mkOrderItems, List.length_cons, mkOrderItems_length oid (nextId + 1) sps]

/-- C6: if any requested line of an order-create request references a menu
item that is absent or unavailable, the request is rejected with 400
before the order row or any order-item row is persisted (the handler
returns an error carrying no store, and the validation loop runs before
any write in the source); otherwise the order is created with subtotal =
the sum over lines of menu price x quantity, tax = 0.085 x subtotal,
total = subtotal + tax, followed by one order-item row per requested
line. -/
theorem create_order_correct (db : DB) (tid : Nat) (lines : List OrderLine)
    (cname cphone stype otype : String) (uid : Nat) (now : Int)
    (newOid firstItemId : Nat) (tb : Table)
    (hfind : db.tables.find? (fun x => x.id == tid) = some tb) :
    (lines.all (lineOk db.menuItems) ≠ true →
      createOrder db tid lines cname cphone stype otype uid now newOid firstItemId =
        .error (.badRequest "Menu item is not available") ∧
      (ApiError.badRequest "Menu item is not available").code = 400) ∧
    (lines.all (lineOk db.menuItems) = true →
      ∃ db' o, createOrder db tid lines cname cphone stype otype uid now newOid
          firstItemId = .ok (db', o) ∧
        o.subtotal = (lines.map (linePrice db.menuItems)).sum ∧
        o.tax = o.subtotal * (85 / 1000) ∧
        o.total = o.subtotal + o.tax ∧
        o.status = "pending" ∧
        db'.orders = db.orders ++ [o] ∧
        ∃ newItems, db'.orderItems = db.orderItems ++ newItems ∧
          newItems.length = lines.length) := by
  constructor
  · intro hbad
    refine ⟨?_, rfl⟩
    simp only [createOrder, hfind, buildOrderItems_err db.menuItems lines hbad]
  · intro hgood
    obtain ⟨specs, hok, hlen⟩ := buildOrderItems_ok db.menuItems lines hgood
    simp only [createOrder, hfind, hok]
    exact ⟨_, _, rfl, rfl, rfl, rfl, rfl, rfl, mkOrderItems newOid firstItemId specs,
      rfl, (mkOrderItems_length newOid firstItemId specs).trans hlen⟩

/-- The available menu used by the C6 witness. -/
def wMenu : List MenuItem :=
  [{ id := 1, name := "Burger", price := 100, is_available := true },
   { id := 2, name := "Cola", price := 50, is_available := true }]

/-- The sample store with the two-item menu. -/
def wDBMenu : DB :=
  { wDB with menuItems := wMenu, orders := [], orderItems := [] }

/-- Witness for C6: ordering 2 burgers and 1 cola on the sample table
yields subtotal 250, tax 21.25 and total 271.25, with two order-item rows
appended. -/
theorem create_order_correct_witness :
    wDBMenu.tables.find? (fun x => x.id == 1) = some wTable ∧
    ([⟨1, 2⟩, ⟨2, 1⟩] : List OrderLine).all (lineOk wDBMenu.menuItems) = true ∧
    ∃ db' o, createOrder wDBMenu 1 [⟨1, 2⟩, ⟨2, 1⟩] "Asha" "999" "dine-in" "food"
        1 0 9 1 = .ok (db', o) ∧
      o.subtotal = 250 ∧ o.tax = 85 / 4 ∧ o.total = 1085 / 4 ∧
      ∃ newItems, db'.orderItems = wDBMenu.orderItems ++ newItems ∧
        newItems.length = 2 := by
  refine ⟨rfl, by decide, ?_⟩
  obtain ⟨db', o, hok, hsub, htax, htot, -, -, newItems, hitems, hilen⟩ :=
    (create_order_correct wDBMenu 1 [⟨1, 2⟩, ⟨2, 1⟩] "Asha" "999" "dine-in" "food"
      1 0 9 1 wTable rfl).2 (by decide)
  have hf1 : wDBMenu.menuItems.find? (fun m => m.id == 1) =
      some ⟨1, "Burger", 100, true⟩ := rfl
  have hf2 : wDBMenu.menuItems.find? (fun m => m.id == 2) =
      some ⟨2, "Cola", 50, true⟩ := rfl
  have hs : (([⟨1, 2⟩, ⟨2, 1⟩] : List OrderLine).map
      (linePrice wDBMenu.menuItems)).sum = (250 : ℚ) := by
    simp only [List.map_cons, List.map_nil, List.sum_cons, List.sum_nil,
      linePrice, hf1, hf2]
    norm_num
  have hsub' : o.subtotal = 250 := by rw [hsub, hs]
  refine ⟨db', o, hok, hsub', ?_, ?_, newItems, hitems, hilen⟩
  · rw [htax, hsub']; norm_num
  · rw [htot, htax, hsub']; norm_num

/-! ### C7: creating a reservation -/

/-- Replace the first occurrence of `pat` in a character list by `repl`
(the semantics of JavaScript `String.prototype.replace` with a string
pattern, which substitutes only the first match). -/
def replaceFirst (pat repl : List Char) : List Char → List Char
  | [] => []
  | c :: cs =>
    if pat.isPrefixOf (c :: cs) then repl ++ (c :: cs).drop pat.length
    else c :: replaceFirst pat repl cs

/-- The type normalization the create-reservation handler applies before
matching tables: `table_type.replace(' Table', '').replace(' Station', '')`
(src/unnamed/part_004 line 124), i.e. drop the first " Table" occurrence,
then the first " Station" occurrence. -/
def stripTableType (s : String) : String :=
  ⟨replaceFirst " Station".data [] (replaceFirst " Table".data [] s.data)⟩

/-- The candidate-table filter of the create-reservation handler: active
tables of the normalized type whose status is "available". -/
def availableTablesFor (db : DB) (table_type : String) : List Table :=
  db.tables.filter (fun tb =>
    tb.ttype == stripTableType table_type && tb.status == "available" && tb.is_active)

/-- The conflicting-reservation filter: reservations at the same
table_type, date and time whose status is "confirmed" or "arrived". -/
def conflictingReservations (db : DB) (table_type rdate rtime : String) :
    List Reservation :=
  db.reservations.filter (fun r =>
    r.table_type == table_type && r.reservation_date == rdate &&
      r.reservation_time == rtime &&
      (r.status == "confirmed" || r.status == "arrived"))

/-- POST /api/reservations (src/unnamed/part_004 lines 89-194).  Rejects
with 400 when no active table of the normalized type is available, or when
the number of conflicting {confirmed, arrived} reservations at the same
type/date/time is at least the number of available tables; otherwise
creates the reservation assigned to the FIRST table of the available list.
The created row's status is the model default (the Sequelize Reservation
model file is not in src; per the spec's reservation lifecycle a new
booking counts as "confirmed"). -/
def createReservation (db : DB) (cname cphone table_type rdate rtime : String)
    (dur party newRid : Nat) : Except ApiError (DB × Reservation) :=
  match availableTablesFor db table_type with
  | [] => .error (.badRequest "No tables available for the selected type")
  | tb0 :: rest =>
    if (tb0 :: rest).length ≤ (conflictingReservations db table_type rdate rtime).length then
      .error (.badRequest "No tables available at the requested time")
    else
      let r : Reservation :=
        { id := newRid, customer_name := cname, customer_phone := cphone,
          table_id := some tb0.id, table_type := table_type,
          reservation_date := rdate, reservation_time := rtime,
          duration := dur, party_size := party, status := "confirmed" }
      .ok ({ db with reservations := db.reservations ++ [r] }, r)

/-- C7: creating a reservation is rejected with 400 when no active table
of the requested (normalized) type is available, or when the count of
{confirmed, arrived} reservations at the same type/date/time is at least
the count of available tables; otherwise the reservation is created and
assigned the first table in the available-table list. -/
theorem create_reservation_correct (db : DB)
    (cname cphone table_type rdate rtime : String) (dur party newRid : Nat) :
    (availableTablesFor db table_type = [] →
      createReservation db cname cphone table_type rdate rtime dur party newRid =
        .error (.badRequest "No tables available for the selected type") ∧
      (ApiError.badRequest "No tables available for the selected type").code = 400) ∧
    (∀ tb0 rest, availableTablesFor db table_type = tb0 :: rest →
      ((tb0 :: rest).length ≤
          (conflictingReservations db table_type rdate rtime).length →
        createReservation db cname cphone table_type rdate rtime dur party newRid =
          .error (.badRequest "No tables available at the requested time") ∧
        (ApiError.badRequest "No tables available at the requested time").code = 400) ∧
      ((conflictingReservations db table_type rdate rtime).length <
          (tb0 :: rest).length →
        ∃ db' r, createReservation db cname cphone table_type rdate rtime dur
            party newRid = .ok (db', r) ∧
          r.table_id = some tb0.id ∧
          r.table_type = table_type ∧
          r.reservation_date = rdate ∧
          r.reservation_time = rtime ∧
          db'.reservations = db.reservations ++ [r])) := by
  constructor
  · intro hempty
    refine ⟨?_, rfl⟩
    simp only [createReservation, hempty]
  · intro tb0 rest hsome
    constructor
    · intro hle
      refine ⟨?_, rfl⟩
      simp only [createReservation, hsome]
      rw [if_pos hle]
    · intro hlt
      simp only [createReservation, hsome]
      rw [if_neg (not_le.mpr hlt)]
      exact ⟨_, _, rfl, rfl, rfl, rfl, rfl, rfl⟩

/-- A second table of the same type, available and active, used by the C7
witness. -/
def wTable2 : Table :=
  { wTable with
      id := 2
      table_number := 6
      status := "available"
      current_session_id := none
      session_start_time := none
      customer_name := none
      customer_phone := none }

/-- An existing confirmed reservation occupying one of the two snooker
tables at the witness slot. -/
def wReservation : Reservation :=
  { id := 1, customer_name := "Ravi", customer_phone := "777",
    table_id := some 2, table_type := "Snooker Table",
    reservation_date := "2026-10-11", reservation_time := "18:00",
    duration := 2, party_size := 2, status := "confirmed" }

/-- Sample store for the C7 witness: two available snooker tables and one
conflicting reservation at the requested slot. -/
def wDBRes : DB :=
  { wDB with
      tables := [wTableFree, wTable2]
      reservations := [wReservation] }

/-- Witness for C7: with two available snooker tables and one conflicting
reservation, a new booking at the same slot is accepted and assigned the
first available table (table 1). -/
theorem create_reservation_correct_witness :
    availableTablesFor wDBRes "Snooker Table" = [wTableFree, wTable2] ∧
    (conflictingReservations wDBRes "Snooker Table" "2026-10-11" "18:00").length <
      ([wTableFree, wTable2] : List Table).length ∧
    ∃ db' r, createReservation wDBRes "Mira" "666" "Snooker Table" "2026-10-11"
        "18:00" 2 4 5 = .ok (db', r) ∧
      r.table_id = some wTableFree.id ∧
      db'.reservations = wDBRes.reservations ++ [r] := by
  have havail : availableTablesFor wDBRes "Snooker Table" = [wTableFree, wTable2] := by
    decide
  have hconf : (conflictingReservations wDBRes "Snooker Table" "2026-10-11"
      "18:00").length < ([wTableFree, wTable2] : List Table).length := by
    decide
  refine ⟨havail, hconf, ?_⟩
  obtain ⟨db', r, hok, htid, -, -, -, hres⟩ :=
    ((create_reservation_correct wDBRes "Mira" "666" "Snooker Table" "2026-10-11"
      "18:00" 2 4 5).2 wTableFree [wTable2] havail).2 hconf
  exact ⟨db', r, hok, htid, hres⟩

/-! ### C8: registration uniqueness -/

/-- POST /api/auth/register (src/routes/auth.js lines 10-133).  Rejects
with 400 when a user with the same email OR the same username already
exists; otherwise appends the new user row (active, with the role's
permission literal; password hashing and token issuance are outside the
store model). -/
def register (db : DB) (name username email password phone role : String)
    (newId : Nat) : Except ApiError (DB × User) :=
  match db.users.find? (fun u => u.email == email || u.username == username) with
  | some _ => .error (.badRequest "User with this email or username already exists")
  | none =>
    let u : User :=
      { id := newId, name := name, username := username, email := email,
        password := password, phone := phone, role := role, is_active := true }
    .ok ({ db with users := db.users ++ [u] }, u)

/-- C8: after a successful registration with some email, any second
registration carrying the same email is rejected with 400 and creates no
user (the handler errors before any write), regardless of whether the
second request carries a different username. -/
theorem register_duplicate_email_rejected (db : DB)
    (n1 un1 em pw1 ph1 r1 : String) (id1 : Nat) (db1 : DB) (u1 : User)
    (hreg : register db n1 un1 em pw1 ph1 r1 id1 = .ok (db1, u1))
    (n2 un2 pw2 ph2 r2 : String) (id2 : Nat) :
    register db1 n2 un2 em pw2 ph2 r2 id2 =
      .error (.badRequest "User with this email or username already exists") ∧
    (ApiError.badRequest "User with this email or username already exists").code
      = 400 := by
  refine ⟨?_, rfl⟩
  rw [register] at hreg
  rcases hf : db.users.find? (fun u => u.email == em || u.username == un1) with
    _ | u
  · rw [hf] at hreg
    simp only [Except.ok.injEq, Prod.mk.injEq] at hreg
    obtain ⟨hdb1, hu1⟩ := hreg
    rw [register]
    rcases hh : db1.users.find? (fun u => u.email == em || u.username == un2) with
      _ | u
    · exfalso
      rw [List.find?_eq_none] at hh
      have hmem : u1 ∈ db1.users := by
        rw [← hdb1]
        exact List.mem_append_right _ (List.mem_singleton.mpr hu1.symm)
      have := hh u1 hmem
      rw [← hu1] at this
      simp at this
    · rw [hh]
  · rw [hf] at hreg
    exact absurd hreg (by simp)

/-- A registered sample user. -/
def wUser : User :=
  { id := 1, name := "Asha", username := "asha", email := "a@x.com",
    password := "pw", phone := "999", role := "Staff", is_active := true }

/-- Witness for C8: registering asha, then registering a second account
with the same email but a different username, hits the 400 duplicate
rejection. -/
theorem register_duplicate_email_rejected_witness :
    (∃ db1 u1,
      register wDB "Asha" "asha" "a@x.com" "pw" "999" "Staff" 1 = .ok (db1, u1)) ∧
    (∀ db1 u1,
      register wDB "Asha" "asha" "a@x.com" "pw" "999" "Staff" 1 = .ok (db1, u1) →
      register db1 "Benji" "benji" "a@x.com" "pw2" "888" "Staff" 2 =
        .error (.badRequest "User with this email or username already exists")) := by
  constructor
  · exact ⟨_, _, rfl⟩
  · intro db1 u1 hreg
    exact (register_duplicate_email_rejected wDB "Asha" "asha" "a@x.com" "pw" "999"
      "Staff" 1 db1 u1 hreg "Benji" "benji" "pw2" "888" "Staff" 2).1

/-! ### C9: cancelled orders are still billed -/

/-- A cancelled copy of the sample order. -/
def wOrderCancelled : Order :=
  { wOrder with status := "cancelled" }

/-- The sample store whose only in-window order is cancelled. -/
def wDBCancelled : DB :=
  { wDB with orders := [wOrderCancelled] }

/-- C9: the order aggregation at session end selects orders by table and
created_at window alone — membership in the summed list is equivalent to
the table/window condition, with no condition on status or
payment_status — so an order with status "cancelled" inside the window is
included in the total the session is billed for. -/
theorem end_session_bills_cancelled_orders (db : DB) (sid : Nat) (t : Int)
    (s : Session) (o : Order)
    (hfind : db.sessions.find? (fun x => x.id == sid) = some s)
    (hact : s.status = "active")
    (ho : o ∈ db.orders) (htid : o.table_id = s.table_id)
    (hlo : s.start_time ≤ o.created_at) (hhi : o.created_at ≤ t)
    (_hcan : o.status = "cancelled") :
    (∀ q ∈ db.orders,
      (q ∈ ordersInWindow db.orders s.table_id s.start_time t ↔
        q.table_id = s.table_id ∧ s.start_time ≤ q.created_at ∧
          q.created_at ≤ t)) ∧
    o ∈ ordersInWindow db.orders s.table_id s.start_time t ∧
    ∃ db' s', endSession db sid t = .ok (db', s') ∧
      s'.total_order_cost =
        sumOrderTotals (ordersInWindow db.orders s.table_id s.start_time t) ∧
      s'.subtotal = s'.session_cost + s'.total_order_cost := by
  have hiff : ∀ q ∈ db.orders,
      (q ∈ ordersInWindow db.orders s.table_id s.start_time t ↔
        q.table_id = s.table_id ∧ s.start_time ≤ q.created_at ∧
          q.created_at ≤ t) := by
    intro q hq
    simp [ordersInWindow, List.mem_filter, hq, and_assoc]
  refine ⟨hiff, (hiff o ho).mpr ⟨htid, hlo, hhi⟩, ?_⟩
  simp only [endSession, hfind, hact, reduceIte]
  exact ⟨_, _, rfl, rfl, rfl⟩

/-- Witness for C9: ending the sample session over the store whose only
order is cancelled still bills its 100 into total_order_cost. -/
theorem end_session_bills_cancelled_orders_witness :
    wDBCancelled.sessions.find? (fun x => x.id == 1) = some wSession ∧
    wSession.status = "active" ∧
    wOrderCancelled ∈ wDBCancelled.orders ∧
    wOrderCancelled.status = "cancelled" ∧
    wOrderCancelled ∈
      ordersInWindow wDBCancelled.orders wSession.table_id wSession.start_time
        3600000 ∧
    ∃ db' s', endSession wDBCancelled 1 3600000 = .ok (db', s') ∧
      s'.total_order_cost =
        sumOrderTotals
          (ordersInWindow wDBCancelled.orders wSession.table_id wSession.start_time
            3600000) := by
  obtain ⟨-, hmem, db', s', hok, htoc, -⟩ :=
    end_session_bills_cancelled_orders wDBCancelled 1 3600000 wSession
      wOrderCancelled rfl rfl (by simp [wDBCancelled]) rfl (by decide) (by decide)
      rfl
  exact ⟨rfl, rfl, by simp [wDBCancelled], rfl, hmem, db', s', hok, htoc⟩

end Resto
